import Mathlib

/-!
Verification of the credential-refresh core of `ig-markets-auth`
(`src/ig_markets_auth/credentials.py`, `src/ig_markets_api/auth/requests.py`,
`src/ig_markets_api/auth/helpers.py`), shallowly embedded.

Conventions of the embedding:
* Wall-clock instants and durations are rationals (seconds); `helpers.utcnow()`
  becomes an explicit `now : ℚ` argument.
* Python `None` becomes `Option.none`; a Python value that may be `None`
  becomes an `Option`.
* Mutation of a `Credentials` object becomes explicit state passing: an
  operation that mutates `self` returns the post-state.  An operation that can
  raise returns the post-state together with a flag (or an `Except`), because a
  Python exception does not roll back the assignments already executed.
* HTTP traffic is replaced by its observable data: the refresh response body is
  an input (`RespData`), and whether the network was contacted is an explicit
  output flag.
-/

namespace IgAuth

/-- `helpers.CLOCK_SKEW_SECS` (`src/ig_markets_api/auth/helpers.py`, line 3). -/
def CLOCK_SKEW_SECS : ℚ := 10

/-- Header maps.  `httpx.Headers` / Python dict view: an association list where
`update` replaces the value of an existing key (and appends a fresh key). -/
abbrev Headers := List (String × String)

/-- `headers.update({key: value})` for a single key: replace in place, append
if absent. -/
def Headers.setKey (h : Headers) (key value : String) : Headers :=
  if (h.map Prod.fst).contains key then
    h.map (fun p => if p.1 = key then (key, value) else p)
  else
    h ++ [(key, value)]

/-- Lookup of a header key (first match), `None` when absent. -/
def Headers.lookup (h : Headers) (key : String) : Option String :=
  List.lookup key h

/-- The JSON-decoded body of a refresh response (`response_data` in
`refresh_grant`, `src/ig_markets_auth/credentials.py`).  Only the keys the
code reads are modelled. -/
structure RespData where
  access_token : Option String
  refresh_token : Option String
  expires_in : Option Int
  scopes : Option String
deriving DecidableEq, Repr

/-- The `Credentials` attrs class (`src/ig_markets_auth/credentials.py`,
lines 59–65).  Every field the code may leave as `None` is an `Option`. -/
structure Credentials where
  token : Option String
  refresh_token : Option String
  scopes : Option String
  token_uri : Option String
  expiry : Option ℚ
deriving DecidableEq, Repr

/-- `_parse_expiry(response_data)` (lines 14–28): `now + expires_in` seconds
when `expires_in` is present, else `None`. -/
def parse_expiry (now : ℚ) (resp : RespData) : Option ℚ :=
  match resp.expires_in with
  | some e => some (now + (e : ℚ))
  | none => none

/-- `Credentials.from_token_response` (lines 67–79): build credentials from a
token payload’s `access_token` / `refresh_token` / `scope` / `expires_in`. -/
def Credentials.from_token_response (now : ℚ) (token : RespData)
    (token_uri : String) (access_token : String) : Credentials :=
  { token := some access_token
    refresh_token := token.refresh_token
    token_uri := some token_uri
    scopes := token.scopes
    expiry := parse_expiry now token }

/-- `Credentials.expired` (lines 115–129): `False` when `expiry` is absent,
else `utcnow() >= expiry - CLOCK_SKEW`. -/
def Credentials.expired (c : Credentials) (now : ℚ) : Bool :=
  match c.expiry with
  | none => false
  | some e => decide (now ≥ e - CLOCK_SKEW_SECS)

/-- `Credentials.valid` (lines 131–138): a token is present and not expired. -/
def Credentials.valid (c : Credentials) (now : ℚ) : Bool :=
  c.token.isSome && !(c.expired now)

/-- `Credentials.apply` (lines 140–152): mutate the header map, setting
`Authorization: Bearer <token>` (override token when given). -/
def Credentials.apply (c : Credentials) (headers : Headers)
    (token : Option String := none) : Headers :=
  Headers.setKey headers "Authorization"
    ("Bearer " ++ (token.getD (c.token.getD "")))

/-- Helper for `pySplit`: split a character list on whitespace, accumulating
the current word in reverse. -/
def splitWsAux : List Char → List Char → List String
  | [], acc => if acc = [] then [] else [String.mk acc.reverse]
  | c :: rest, acc =>
      if c.isWhitespace then
        if acc = [] then splitWsAux rest []
        else String.mk acc.reverse :: splitWsAux rest []
      else splitWsAux rest (c :: acc)

/-- Python `str.split()` with no argument: split on runs of whitespace,
dropping empty pieces. -/
def pySplit (s : String) : List String :=
  splitWsAux s.toList []

/-- `frozenset(s)` for a Python string `s`: the set of its characters, each a
one-character string (Python has no char type, so the elements compare equal
to one-character scope names). -/
def pyFrozensetOfStr (s : String) : List String :=
  s.toList.map (fun c => String.mk [c])

/-- The scope-grant check of `Credentials.refresh` (lines 103–113):
`frozenset(self.scopes) - frozenset(grant_response["scopes"].split())`.
Returns the elements of the set difference (characters of the requested-scope
string that are not granted scope words); `refresh` raises when this is
non-empty. -/
def scopesNotGranted (requested granted : String) : List String :=
  (pyFrozensetOfStr requested).filter (fun x => ¬ (pySplit granted).contains x)

/-- Truthiness of `self.scopes` (an `Optional[str]`): `None` and the empty
string are falsy. -/
def scopesTruthy (s : Option String) : Bool :=
  match s with
  | none => false
  | some str => str ≠ ""

/-- Outcome of one `Credentials.refresh` call: the post-state of the mutated
`self`, whether a `RefreshError` was raised, and whether the token endpoint
was contacted (`refresh_grant` issued its POST). -/
structure RefreshOutcome where
  state : Credentials
  raised : Bool
  usedNetwork : Bool
deriving DecidableEq, Repr

/-- `Credentials.refresh` (lines 81–113), with `refresh_grant` (lines 31–56)
inlined.  `resp` is the JSON body the token endpoint would return; `now` is
`helpers.utcnow()` at response-parsing time.  The Python method mutates
`self.token` / `self.expiry` / `self.refresh_token` *before* the scope-grant
check, so a scope-grant `RefreshError` leaves the new values in place. -/
def Credentials.refresh (c : Credentials) (now : ℚ) (resp : RespData) :
    RefreshOutcome :=
  if c.refresh_token = none ∨ c.token_uri = none then
    -- precondition failure: raise before any network traffic
    { state := c, raised := true, usedNetwork := false }
  else
    match resp.access_token with
    | none =>
        -- `refresh_grant` raises RefreshError("No access token in response.")
        { state := c, raised := true, usedNetwork := true }
    | some access_token =>
        let refresh_token := match resp.refresh_token with
          | some rt => some rt
          | none => c.refresh_token
        let expiry := parse_expiry now resp
        let c' : Credentials :=
          { c with token := some access_token, expiry := expiry,
                   refresh_token := refresh_token }
        if scopesTruthy c.scopes ∧ resp.scopes ≠ none then
          let missing := scopesNotGranted (c.scopes.getD "") (resp.scopes.getD "")
          if missing ≠ [] then
            { state := c', raised := true, usedNetwork := true }
          else
            { state := c', raised := false, usedNetwork := true }
        else
          { state := c', raised := false, usedNetwork := true }

/-- `Credentials.to_json` (lines 178–204) with no `strip` argument: the JSON
object `{token, refresh_token, scopes}` with `None` entries removed, as an
association list in insertion order. -/
def Credentials.to_json (c : Credentials) : List (String × String) :=
  ([("token", c.token), ("refresh_token", c.refresh_token),
    ("scopes", c.scopes)].filterMap
    (fun p => p.2.map (fun v => (p.1, v))))

/-! ## TimeoutGuard (`src/ig_markets_api/auth/requests.py`, lines 26–67) -/

/-- The `timeout` argument of `TimeoutGuard`: `None`, a single number of
seconds, or a `(connect, read)` pair. -/
inductive Budget where
  | unbounded : Budget
  | single : ℚ → Budget
  | pair : ℚ → ℚ → Budget
deriving DecidableEq, Repr

/-- What `TimeoutGuard.__exit__` does: let a body exception bubble, exit
normally, or raise the configured timeout error. -/
inductive GuardResult where
  /-- the wrapped body raised; its exception propagates unchanged -/
  | bubbled : Budget → GuardResult
  /-- normal exit, carrying `remaining_timeout` -/
  | normal : Budget → GuardResult
  /-- the deadline was hit at scope exit; a timeout error is raised,
  `remaining_timeout` holding the value computed before the raise -/
  | timedOut : Budget → GuardResult
deriving DecidableEq, Repr

/-- `TimeoutGuard.__exit__` (lines 49–67).  `timeout` is the budget given to
`__init__` (also the initial `remaining_timeout`), `elapsed` is
`time.time() - self._start`, and `excRaised` tells whether the body raised.
The returned `GuardResult` carries the final value of `remaining_timeout`. -/
def TimeoutGuard.exitScope (timeout : Budget) (elapsed : ℚ)
    (excRaised : Bool) : GuardResult :=
  if excRaised then
    -- `if exc_value: return` — no deadline check, remaining_timeout untouched
    .bubbled timeout
  else
    match timeout with
    | .unbounded => .normal .unbounded
    | .single t =>
        let remaining := Budget.single (t - elapsed)
        if t - elapsed ≤ 0 then .timedOut remaining else .normal remaining
    | .pair a b =>
        let remaining := Budget.pair (a - elapsed) (b - elapsed)
        if min (a - elapsed) (b - elapsed) ≤ 0 then .timedOut remaining
        else .normal remaining

/-! ## AuthorizedSession.request (`src/ig_markets_api/auth/requests.py`,
lines 93–209) -/

/-- `DEFAULT_MAX_REFRESH_ATTEMPTS` (line 20). -/
def DEFAULT_MAX_REFRESH_ATTEMPTS : Nat := 2

/-- `DEFAULT_REFRESH_STATUS_CODES` (line 15): just 401 UNAUTHORIZED. -/
def DEFAULT_REFRESH_STATUS_CODES : List Nat := [401]

/-- The keyword arguments of one `AuthorizedSession.request` call
(lines 93–110).  `timeout` and `max_allowed_time` are abstracted to the shapes
the retry logic passes on; `auth` keeps only whether it is the `UNSET`
sentinel; bodies (`content`/`data`/`files`/`json`) and `params`/`cookies` are
opaque optional payloads. -/
structure RequestArgs where
  method : String
  url : String
  content : Option String := none
  data : Option String := none
  files : Option String := none
  json : Option String := none
  params : Option String := none
  headers : Option Headers := none
  cookies : Option String := none
  /-- `true` when `auth` is the `UNSET` sentinel default -/
  authIsUnset : Bool := true
  allow_redirects : Bool := true
  /-- `UNSET` when `none` -/
  timeout : Option Budget := none
  max_allowed_time : Option ℚ := none
  credential_refresh_attempt : Nat := 0
deriving DecidableEq, Repr

/-- The recursive call of the refresh-retry branch (lines 198–207): it passes
`method`, `url`, `data=data`, `headers=original_headers`,
`max_allowed_time=remaining_time`, `timeout=timeout` and
`credential_refresh_attempt + 1`; every other keyword parameter of `request`
is left to its declared default. -/
def retryArgs (orig : RequestArgs) (original_headers : Headers)
    (remaining_time : Option ℚ) : RequestArgs :=
  { method := orig.method
    url := orig.url
    data := orig.data
    headers := some original_headers
    max_allowed_time := remaining_time
    timeout := orig.timeout
    credential_refresh_attempt := orig.credential_refresh_attempt + 1 }

/-- The header base handed to the recursive retry call.  In the source,
`original_headers = request.headers` (line 149) binds a reference to the very
`httpx.Headers` object that `self.credentials.before_request(...,
request.headers)` (line 157) then mutates via `Credentials.apply`; no copy is
taken.  So the base forwarded at line 202 is the caller-supplied headers
*after* the auth-gate mutation.  (`build_request` is modelled with an empty
client-default header set, so `request.headers` starts as the caller's
headers.) -/
def retryHeaderBase (c : Credentials) (callerHeaders : Headers) : Headers :=
  c.apply callerHeaders

/-- Result of running the decision/retry loop of `request`: how many times the
refresh-retry branch ran `self.credentials.refresh`, how many times the
request was sent, and the status code of the response finally returned. -/
structure RunResult where
  refreshes : Nat
  sends : Nat
  finalStatus : Nat
deriving DecidableEq, Repr

/-- The decision/retry recursion of `AuthorizedSession.request`
(lines 162–209): send the request (the response to send number `i`, counting
from 0, has status `respond i`); if the status is in `refresh_status_codes`
and `credential_refresh_attempt < max_refresh_attempts`, refresh the
credentials and recurse with the attempt counter incremented; otherwise
return the response. -/
def requestRun (refreshCodes : List Nat) (maxAttempts : Nat)
    (respond : Nat → Nat) (attempt : Nat) : RunResult :=
  let status := respond attempt
  if h : status ∈ refreshCodes ∧ attempt < maxAttempts then
    let rest := requestRun refreshCodes maxAttempts respond (attempt + 1)
    { refreshes := rest.refreshes + 1
      sends := rest.sends + 1
      finalStatus := rest.finalStatus }
  else
    { refreshes := 0, sends := 1, finalStatus := status }
termination_by maxAttempts - attempt
decreasing_by omega

/-! ## Theorems about the claims -/

/-- C1 (counterexample): with the default configuration
(`max_refresh_attempts = 2`, refresh statuses `{401}`), a request whose sends
all come back 401 performs TWO credential refreshes and THREE sends — not the
single refresh and single retry the claim states: the second consecutive 401
is refreshed-and-retried again rather than returned as-is. -/
theorem C1_counterexample :
    (requestRun DEFAULT_REFRESH_STATUS_CODES DEFAULT_MAX_REFRESH_ATTEMPTS
        (fun _ => 401) 0).refreshes = 2 ∧
    (requestRun DEFAULT_REFRESH_STATUS_CODES DEFAULT_MAX_REFRESH_ATTEMPTS
        (fun _ => 401) 0).sends = 3 := by
  simp [requestRun, DEFAULT_REFRESH_STATUS_CODES, DEFAULT_MAX_REFRESH_ATTEMPTS]

/-- C1 (amended): with the default `max_refresh_attempts = 2`, a first
response in the refresh status set triggers a refresh and a retry; if the
retried send's response is outside the set it is returned as-is after exactly
one refresh, while if it is again in the set a second refresh + retry cycle
runs and the third response is returned as-is with no further refresh. -/
theorem C1_amended_refresh_retry_cycles (respond : Nat → Nat)
    (h0 : respond 0 ∈ DEFAULT_REFRESH_STATUS_CODES) :
    (respond 1 ∉ DEFAULT_REFRESH_STATUS_CODES →
       requestRun DEFAULT_REFRESH_STATUS_CODES DEFAULT_MAX_REFRESH_ATTEMPTS
         respond 0 = ⟨1, 2, respond 1⟩) ∧
    (respond 1 ∈ DEFAULT_REFRESH_STATUS_CODES →
       requestRun DEFAULT_REFRESH_STATUS_CODES DEFAULT_MAX_REFRESH_ATTEMPTS
         respond 0 = ⟨2, 3, respond 2⟩) := by
  constructor
  · intro h1
    rw [requestRun, dif_pos ⟨h0, by norm_num [DEFAULT_MAX_REFRESH_ATTEMPTS]⟩]
    rw [requestRun, dif_neg (by exact fun hc => h1 hc.1)]
  · intro h1
    rw [requestRun, dif_pos ⟨h0, by norm_num [DEFAULT_MAX_REFRESH_ATTEMPTS]⟩]
    rw [requestRun, dif_pos ⟨h1, by norm_num [DEFAULT_MAX_REFRESH_ATTEMPTS]⟩]
    rw [requestRun, dif_neg (by norm_num [DEFAULT_MAX_REFRESH_ATTEMPTS])]

/-- C1 (witness): a 401 followed by a 200 ends after one refresh and two
sends, returning the 200 response. -/
theorem C1_witness :
    ((fun i => if i = 0 then 401 else 200) 0 ∈ DEFAULT_REFRESH_STATUS_CODES) ∧
    ((fun i => if i = 0 then 401 else 200) 1 ∉ DEFAULT_REFRESH_STATUS_CODES) ∧
    requestRun DEFAULT_REFRESH_STATUS_CODES DEFAULT_MAX_REFRESH_ATTEMPTS
      (fun i => if i = 0 then 401 else 200) 0 = ⟨1, 2, 200⟩ :=
  ⟨by decide, by decide,
    (C1_amended_refresh_retry_cycles (fun i => if i = 0 then 401 else 200)
      (by decide)).1 (by decide)⟩

/-- C2: the Authorization header that `Credentials.apply` added during the
first attempt IS present in the header base forwarded to the recursive retry
call — `original_headers` aliases the mutated `request.headers` object — even
though the caller supplied no Authorization header at all.  This contradicts
the claim (and the source's own comment "Pass in the original headers, not
our modified set"). -/
theorem C2_stale_authorization_in_retry_base :
    Headers.lookup
      (retryHeaderBase ⟨some "tok", some "r", none, some "u", none⟩ [])
      "Authorization" = some "Bearer tok" ∧
    Headers.lookup ([] : Headers) "Authorization" = none := by
  constructor <;> rfl

/-- C3: `Credentials.expired` is true exactly when `expiry` is set and
`now ≥ expiry − CLOCK_SKEW_SECS` (10 s).  Consequently credentials with
`expiry = None` are never expired, the predicate is false strictly before the
skewed boundary, and true at exactly `expiry − skew`. -/
theorem C3_expired_iff_skewed_boundary (c : Credentials) (now : ℚ) :
    c.expired now = true ↔
      ∃ e, c.expiry = some e ∧ now ≥ e - CLOCK_SKEW_SECS := by
  unfold Credentials.expired
  cases c.expiry with
  | none => simp
  | some e => simp

/-- C4: the scope-grant check compares the CHARACTERS of the requested-scope
string (`frozenset(self.scopes)`) against the space-split granted-scope
words, so a refresh whose granted scope string is identical to the requested
one ("read" vs "read") still raises `RefreshError`, with "missing scopes"
`r`, `e`, `a`, `d` — contradicting the claimed set-difference over scopes,
under which this refresh must succeed. -/
theorem C4_identical_grant_still_raises :
    (Credentials.refresh ⟨some "old", some "r", some "read", some "u", none⟩ 0
        ⟨some "new", some "r2", some 60, some "read"⟩).raised = true ∧
    scopesNotGranted "read" "read" = ["r", "e", "a", "d"] := by
  constructor <;> rfl

/-- C5 (counterexample): a refresh that raises `RefreshError` in the
scope-grant check has already replaced `token`, `refresh_token` and `expiry`
with the new values, so the fields are NOT unchanged on error as the claim
states. -/
theorem C5_counterexample :
    (Credentials.refresh ⟨some "old", some "r", some "read", some "u", none⟩ 0
        ⟨some "new", some "r2", some 60, some "x"⟩).raised = true ∧
    (Credentials.refresh ⟨some "old", some "r", some "read", some "u", none⟩ 0
        ⟨some "new", some "r2", some 60, some "x"⟩).state.token = some "new" ∧
    (Credentials.refresh ⟨some "old", some "r", some "read", some "u", none⟩ 0
        ⟨some "new", some "r2", some 60, some "x"⟩).state.refresh_token = some "r2" ∧
    (Credentials.refresh ⟨some "old", some "r", some "read", some "u", none⟩ 0
        ⟨some "new", some "r2", some 60, some "x"⟩).state.expiry = some 60 ∧
    ((some "new" : Option String) ≠ some "old" ∧
     (some "r2" : Option String) ≠ some "r" ∧
     (some (60 : ℚ) : Option ℚ) ≠ none) := by
  refine ⟨rfl, rfl, rfl, ?_, by decide, by decide, by decide⟩
  show some ((0 : ℚ) + 60) = some 60
  norm_num

/-- C5 (amended): `RefreshError`s raised before the grant is parsed (missing
prerequisites, missing access token) leave the credentials unchanged; but
once the response carries an access token, `token`, `expiry` and
`refresh_token` are all replaced together — whether or not the subsequent
scope-grant check then raises — so only the scope-grant `RefreshError` leaves
the new values observable. -/
theorem C5_amended_refresh_mutation (c : Credentials) (now : ℚ)
    (resp : RespData) :
    ((c.refresh_token = none ∨ c.token_uri = none) →
       (c.refresh now resp).state = c) ∧
    (resp.access_token = none → (c.refresh now resp).state = c) ∧
    (∀ tok, resp.access_token = some tok →
       c.refresh_token ≠ none → c.token_uri ≠ none →
       (c.refresh now resp).state.token = some tok ∧
       (c.refresh now resp).state.expiry = parse_expiry now resp ∧
       (c.refresh now resp).state.refresh_token =
         (match resp.refresh_token with
          | some rt => some rt
          | none => c.refresh_token)) := by
  refine ⟨?_, ?_, ?_⟩
  · intro h
    unfold Credentials.refresh
    rw [if_pos h]
  · intro h
    unfold Credentials.refresh
    by_cases hpre : c.refresh_token = none ∨ c.token_uri = none
    · rw [if_pos hpre]
    · rw [if_neg hpre, h]
  · intro tok htok hrt huri
    unfold Credentials.refresh
    rw [if_neg (by tauto), htok]
    dsimp only
    split
    · split
      · exact ⟨rfl, rfl, rfl⟩
      · exact ⟨rfl, rfl, rfl⟩
    · exact ⟨rfl, rfl, rfl⟩

/-- C5 (witness): a concrete refresh whose response carries an access token
replaces all three fields, here while the scope-grant check raises. -/
theorem C5_amended_witness :
    (((⟨some "old", some "r", some "read", some "u", none⟩ : Credentials).refresh 0
        ⟨some "new", some "r2", some 60, some "x"⟩).state.token = some "new" ∧
     ((⟨some "old", some "r", some "read", some "u", none⟩ : Credentials).refresh 0
        ⟨some "new", some "r2", some 60, some "x"⟩).state.expiry =
       parse_expiry 0 ⟨some "new", some "r2", some 60, some "x"⟩ ∧
     ((⟨some "old", some "r", some "read", some "u", none⟩ : Credentials).refresh 0
        ⟨some "new", some "r2", some 60, some "x"⟩).state.refresh_token =
       some "r2") :=
  (C5_amended_refresh_mutation
      ⟨some "old", some "r", some "read", some "u", none⟩ 0
      ⟨some "new", some "r2", some 60, some "x"⟩).2.2 "new" rfl
    (by decide) (by decide)

/-- C6: refreshing credentials that lack a `refresh_token` or a `token_uri`
raises `RefreshError` before any network request, leaving the whole state —
in particular `token` and `expiry` — unchanged. -/
theorem C6_refresh_missing_prerequisites (c : Credentials) (now : ℚ)
    (resp : RespData) (h : c.refresh_token = none ∨ c.token_uri = none) :
    (c.refresh now resp).raised = true ∧
    (c.refresh now resp).usedNetwork = false ∧
    (c.refresh now resp).state = c := by
  unfold Credentials.refresh
  rw [if_pos h]
  exact ⟨rfl, rfl, rfl⟩

/-- C6 (witness): concrete credentials with `refresh_token = None`. -/
theorem C6_witness :
    ((⟨some "t", none, some "s", some "u", some 5⟩ : Credentials).refresh_token = none ∨
      (⟨some "t", none, some "s", some "u", some 5⟩ : Credentials).token_uri = none) ∧
    ((⟨some "t", none, some "s", some "u", some 5⟩ : Credentials).refresh 0
        ⟨some "new", none, none, none⟩).raised = true ∧
    ((⟨some "t", none, some "s", some "u", some 5⟩ : Credentials).refresh 0
        ⟨some "new", none, none, none⟩).usedNetwork = false ∧
    ((⟨some "t", none, some "s", some "u", some 5⟩ : Credentials).refresh 0
        ⟨some "new", none, none, none⟩).state = ⟨some "t", none, some "s", some "u", some 5⟩ :=
  ⟨Or.inl rfl, C6_refresh_missing_prerequisites _ 0 _ (Or.inl rfl)⟩

/-- C7: when the wrapped body completes without raising, an unbounded budget
exits normally; a numeric budget raises a timeout exactly when
`budget − elapsed ≤ 0` and otherwise exits normally with
`remaining_timeout = budget − elapsed`; a pair budget raises exactly when the
minimum of the per-component remainders is `≤ 0` and otherwise exits normally
with both components reduced by `elapsed`. -/
theorem C7_guard_exit_body_succeeded (timeout : Budget) (elapsed : ℚ) :
    (timeout = Budget.unbounded →
       TimeoutGuard.exitScope timeout elapsed false = .normal .unbounded) ∧
    (∀ t, timeout = Budget.single t →
       (t - elapsed ≤ 0 →
          TimeoutGuard.exitScope timeout elapsed false =
            .timedOut (.single (t - elapsed))) ∧
       (0 < t - elapsed →
          TimeoutGuard.exitScope timeout elapsed false =
            .normal (.single (t - elapsed)))) ∧
    (∀ a b, timeout = Budget.pair a b →
       (min (a - elapsed) (b - elapsed) ≤ 0 →
          TimeoutGuard.exitScope timeout elapsed false =
            .timedOut (.pair (a - elapsed) (b - elapsed))) ∧
       (0 < min (a - elapsed) (b - elapsed) →
          TimeoutGuard.exitScope timeout elapsed false =
            .normal (.pair (a - elapsed) (b - elapsed)))) := by
  refine ⟨?_, ?_, ?_⟩
  · rintro rfl; rfl
  · rintro t rfl
    constructor
    · intro h; simp [TimeoutGuard.exitScope, h]
    · intro h; simp [TimeoutGuard.exitScope, not_le.mpr h]
  · rintro a b rfl
    constructor
    · intro h; simp [TimeoutGuard.exitScope, h]
    · intro h; simp [TimeoutGuard.exitScope, not_le.mpr h]

/-- C7 (witness): a 1-second budget with 2 seconds elapsed times out with
remainder −1, even though the body succeeded. -/
theorem C7_witness :
    ((Budget.single 1 : Budget) = Budget.single 1) ∧
    ((1 : ℚ) - 2 ≤ 0) ∧
    TimeoutGuard.exitScope (Budget.single 1) 2 false =
      .timedOut (.single ((1 : ℚ) - 2)) :=
  ⟨rfl, by norm_num,
    ((C7_guard_exit_body_succeeded (Budget.single 1) 2).2.1 1 rfl).1 (by norm_num)⟩

/-- C8: looking up the fields of the JSON object produced by `to_json()`
(no `strip`) for credentials whose `token`, `refresh_token` and `scopes` are
all present, and feeding them back into the `Credentials` constructor,
reproduces the original `token`, `refresh_token` and `scopes`. -/
theorem C8_to_json_roundtrip (c : Credentials) (t r s : String)
    (uri : Option String) (exp : Option ℚ)
    (ht : c.token = some t) (hr : c.refresh_token = some r)
    (hs : c.scopes = some s) :
    ((c.to_json.lookup "token" = some t) ∧
     (c.to_json.lookup "refresh_token" = some r) ∧
     (c.to_json.lookup "scopes" = some s)) ∧
    ((Credentials.mk (c.to_json.lookup "token")
        (c.to_json.lookup "refresh_token") (c.to_json.lookup "scopes")
        uri exp).token = c.token ∧
     (Credentials.mk (c.to_json.lookup "token")
        (c.to_json.lookup "refresh_token") (c.to_json.lookup "scopes")
        uri exp).refresh_token = c.refresh_token ∧
     (Credentials.mk (c.to_json.lookup "token")
        (c.to_json.lookup "refresh_token") (c.to_json.lookup "scopes")
        uri exp).scopes = c.scopes) := by
  unfold Credentials.to_json
  rw [ht, hr, hs]
  simp [List.lookup]

/-- C8 (witness): a concrete round trip. -/
theorem C8_witness :
    ((⟨some "t", some "r", some "s", some "u", none⟩ : Credentials).token = some "t") ∧
    ((⟨some "t", some "r", some "s", some "u", none⟩ : Credentials).to_json.lookup "token" = some "t" ∧
     (⟨some "t", some "r", some "s", some "u", none⟩ : Credentials).to_json.lookup "refresh_token" = some "r" ∧
     (⟨some "t", some "r", some "s", some "u", none⟩ : Credentials).to_json.lookup "scopes" = some "s") :=
  ⟨rfl,
    (C8_to_json_roundtrip ⟨some "t", some "r", some "s", some "u", none⟩
      "t" "r" "s" none none rfl rfl rfl).1⟩

/-- C9: the recursive retry call forwards exactly `method`, `url`, `data`,
`headers`, `max_allowed_time`, `timeout` and the incremented
`credential_refresh_attempt`; `content`, `files`, `json`, `params`,
`cookies`, `auth` and `allow_redirects` fall back to their declared defaults,
so a body supplied via `json` (or `content`/`files`) is replayed without it. -/
theorem C9_retry_forwards_only_listed_args (orig : RequestArgs)
    (original_headers : Headers) (remaining_time : Option ℚ) :
    (retryArgs orig original_headers remaining_time).method = orig.method ∧
    (retryArgs orig original_headers remaining_time).url = orig.url ∧
    (retryArgs orig original_headers remaining_time).data = orig.data ∧
    (retryArgs orig original_headers remaining_time).headers =
      some original_headers ∧
    (retryArgs orig original_headers remaining_time).max_allowed_time =
      remaining_time ∧
    (retryArgs orig original_headers remaining_time).timeout = orig.timeout ∧
    (retryArgs orig original_headers remaining_time).credential_refresh_attempt =
      orig.credential_refresh_attempt + 1 ∧
    (retryArgs orig original_headers remaining_time).content = none ∧
    (retryArgs orig original_headers remaining_time).files = none ∧
    (retryArgs orig original_headers remaining_time).json = none ∧
    (retryArgs orig original_headers remaining_time).params = none ∧
    (retryArgs orig original_headers remaining_time).cookies = none ∧
    (retryArgs orig original_headers remaining_time).authIsUnset = true ∧
    (retryArgs orig original_headers remaining_time).allow_redirects = true := by
  refine ⟨rfl, rfl, rfl, rfl, rfl, rfl, rfl, rfl, rfl, rfl, rfl, rfl, rfl, rfl⟩

/-- C10: when the wrapped body raises, `__exit__` performs no deadline check:
the exception bubbles with `remaining_timeout` still equal to the original
budget, and no timeout error is raised for any budget or elapsed time. -/
theorem C10_guard_exit_body_raised (timeout : Budget) (elapsed : ℚ) :
    TimeoutGuard.exitScope timeout elapsed true = .bubbled timeout ∧
    ∀ r, TimeoutGuard.exitScope timeout elapsed true ≠ .timedOut r := by
  constructor
  · rfl
  · intro r h
    simp [TimeoutGuard.exitScope] at h

end IgAuth
